import Mathlib

/-!
Shallow embedding of `src/backup.py` and `src/restore.py` of the
`universal_db_backup` repository.

Conventions of the embedding:
* external tool invocations are modelled by the argument vectors (argv lists)
  the source constructs, recorded in the order the source runs them;
* the outcome of an invocation that the source actually inspects is supplied
  as an explicit parameter (an exit code for `subprocess` calls, a boolean
  for the PostgreSQL database-existence query);
* Python exceptions become `Except` errors carrying the source's message;
* a directory listing (`Path.iterdir`) is an explicit list of entries, each
  with a name, a kind (file or directory) and an `st_mtime` key.
-/

namespace UDB

/-- Kind of one entry of a directory listing (`p.is_file()` / `p.is_dir()`). -/
inductive EntryKind
  | file
  | dir
  deriving DecidableEq, Repr

/-- One entry of an instance directory as seen by `base.iterdir()`:
its path, its kind, and its `st_mtime` sort key. -/
structure DirEntry where
  path : String
  kind : EntryKind
  mtime : Nat
  deriving DecidableEq, Repr

/-- Result of one rotation pass: the entries deleted (in deletion order), the
entries that remain, and whether the pass ended in an uncaught `IndexError`
(`entries.pop(0)` on an empty list, reachable exactly when the retention
count is negative). -/
structure RotateResult where
  deleted : List DirEntry
  remaining : List DirEntry
  crashed : Bool
  deriving DecidableEq, Repr

/-- The deletion loop shared by `rotate_folders` and `rotate_files`
(src/backup.py lines 28-31 and 40-43):
`while len(entries) > RETENTION: old = entries.pop(0); delete(old)`,
run on the already-sorted entry list.  The loop re-tests the length against
`keep` after every pop; with a negative `keep` the test still succeeds on the
empty list and `pop(0)` raises `IndexError`. -/
def rotLoop (keep : Int) : List DirEntry → RotateResult
  | [] => if (0 : Int) > keep then ⟨[], [], true⟩ else ⟨[], [], false⟩
  | e :: rest =>
    if (((e :: rest).length : Int)) > keep then
      let r := rotLoop keep rest
      ⟨e :: r.deleted, r.remaining, r.crashed⟩
    else ⟨[], e :: rest, false⟩

/-- The ordering key of `sorted(entries, key=lambda p: p.stat().st_mtime)`. -/
def mtimeLE (a b : DirEntry) : Prop := a.mtime ≤ b.mtime

instance : DecidableRel mtimeLE := fun a b => Nat.decLe a.mtime b.mtime

instance : IsTotal DirEntry mtimeLE := ⟨fun a b => Nat.le_total a.mtime b.mtime⟩

instance : IsTrans DirEntry mtimeLE := ⟨fun _ _ _ h1 h2 => Nat.le_trans h1 h2⟩

/-- `sorted(entries, key=lambda p: p.stat().st_mtime)`.  Python's sort is
stable, and every stable sort computes the same list, so it is embedded as
stable insertion sort by the same key. -/
def sortByMtime (entries : List DirEntry) : List DirEntry :=
  List.insertionSort mtimeLE entries

/-- The common body of the two rotation routines: sort the selected entries
ascending by modification time, then delete from the oldest end while more
than `keep` remain. -/
def rotate (entries : List DirEntry) (keep : Int) : RotateResult :=
  rotLoop keep (sortByMtime entries)

/-- `rotate_files` (src/backup.py lines 34-43): select the `p.is_file()`
entries of the instance directory, sort them by mtime, and `unlink` the
oldest while more than `keep` remain. -/
def rotate_files (contents : List DirEntry) (keep : Int) : RotateResult :=
  rotate (contents.filter fun e => e.kind == EntryKind.file) keep

/-- `rotate_folders` (src/backup.py lines 22-31): select the `p.is_dir()`
entries of the instance directory, sort them by mtime, and `shutil.rmtree`
the oldest while more than `keep` remain. -/
def rotate_folders (contents : List DirEntry) (keep : Int) : RotateResult :=
  rotate (contents.filter fun e => e.kind == EntryKind.dir) keep

/-- With a non-negative retention count the loop deletes exactly the prefix
beyond the retained tail and never crashes. -/
theorem rotLoop_of_nonneg (keep : Int) (hk : 0 ≤ keep) :
    ∀ es : List DirEntry,
      rotLoop keep es
        = ⟨es.take (es.length - keep.toNat), es.drop (es.length - keep.toNat), false⟩
  | [] => by
    simp [rotLoop, not_lt.mpr hk]
  | e :: rest => by
    rw [rotLoop]
    by_cases h : (((e :: rest).length : Int)) > keep
    · have hle : keep.toNat ≤ rest.length := by
        have h2 : keep < (rest.length : Int) + 1 := by
          simpa [List.length_cons] using h
        omega
      have hlen : (e :: rest).length - keep.toNat = (rest.length - keep.toNat) + 1 := by
        simp only [List.length_cons]
        omega
      simp only [if_pos h, rotLoop_of_nonneg keep hk rest, hlen, List.take_succ_cons,
        List.drop_succ_cons]
    · have hle : (e :: rest).length ≤ keep.toNat := by
        have h2 : ((e :: rest).length : Int) ≤ keep := not_lt.mp h
        omega
      have h2 : ¬ keep < (rest.length : Int) + 1 := by
        simp only [List.length_cons, gt_iff_lt] at h
        push_cast at h
        exact h
      have hz : rest.length + 1 - keep.toNat = 0 := by
        simp only [List.length_cons] at hle
        omega
      simp [h2, hz, List.length_cons]

/-- With a negative retention count the loop deletes every entry and then
crashes on `pop(0)` from the empty list. -/
theorem rotLoop_of_neg (keep : Int) (hk : keep < 0) :
    ∀ es : List DirEntry, rotLoop keep es = ⟨es, [], true⟩
  | [] => by simp [rotLoop, hk]
  | e :: rest => by
    have h : (((e :: rest).length : Int)) > keep := by
      have : (0 : Int) ≤ ((e :: rest).length : Int) := Int.ofNat_nonneg _
      omega
    rw [rotLoop, if_pos h, rotLoop_of_neg keep hk rest]

/-- The deleted prefix is a sublist of the list the loop ran on. -/
theorem rotLoop_deleted_sublist (keep : Int) (es : List DirEntry) :
    List.Sublist (rotLoop keep es).deleted es := by
  rcases le_or_lt 0 keep with hk | hk
  · rw [rotLoop_of_nonneg keep hk es]
    exact List.take_sublist _ _
  · rw [rotLoop_of_neg keep hk es]

/-- Everything `rotate` deletes comes from the entry list it was given. -/
theorem rotate_deleted_mem (entries : List DirEntry) (keep : Int) :
    ∀ e ∈ (rotate entries keep).deleted, e ∈ entries := by
  intro e he
  have h1 : e ∈ sortByMtime entries :=
    (rotLoop_deleted_sublist keep (sortByMtime entries)).subset he
  exact (List.perm_insertionSort mtimeLE entries).mem_iff.mp h1

/-- Core retention behaviour of the shared rotation body, for entries with
pairwise-distinct modification times: when the count exceeds `keep` it
deletes `min (count) (count - keep)` entries (`count - keep` when
`keep ≥ 0`, all of them when `keep < 0`); every deleted entry is strictly
older than every retained one; `keep ≥ count` deletes nothing; and
`keep ≤ 0` deletes everything. -/
theorem rotate_spec (entries : List DirEntry) (keep : Int)
    (hdist : (entries.map DirEntry.mtime).Nodup) :
    (((entries.length : Int) > keep →
        (((rotate entries keep).deleted.length : Int)
          = min (entries.length : Int) ((entries.length : Int) - keep))) ∧
      (∀ d ∈ (rotate entries keep).deleted,
        ∀ k ∈ (rotate entries keep).remaining, d.mtime < k.mtime) ∧
      (keep ≥ (entries.length : Int) → (rotate entries keep).deleted = []) ∧
      (keep ≤ 0 → (rotate entries keep).remaining = []
        ∧ (rotate entries keep).deleted.length = entries.length)) := by
  have hperm : List.Perm (sortByMtime entries) entries :=
    List.perm_insertionSort mtimeLE entries
  have hlenS : (sortByMtime entries).length = entries.length := hperm.length_eq
  have hsorted : List.Sorted mtimeLE (sortByMtime entries) :=
    List.sorted_insertionSort mtimeLE entries
  have hdistS : ((sortByMtime entries).map DirEntry.mtime).Nodup :=
    ((hperm.map DirEntry.mtime).nodup_iff).mpr hdist
  have hpairNe : (sortByMtime entries).Pairwise fun a b => a.mtime ≠ b.mtime :=
    List.pairwise_map.mp hdistS
  have hpairLT : (sortByMtime entries).Pairwise fun a b => a.mtime < b.mtime := by
    have : (sortByMtime entries).Pairwise
        fun a b => mtimeLE a b ∧ a.mtime ≠ b.mtime := hsorted.and hpairNe
    exact this.imp fun h => lt_of_le_of_ne h.1 h.2
  rcases le_or_lt 0 keep with hk | hk
  · have hrot : rotate entries keep
        = ⟨(sortByMtime entries).take ((sortByMtime entries).length - keep.toNat),
           (sortByMtime entries).drop ((sortByMtime entries).length - keep.toNat),
           false⟩ := by
      rw [rotate, rotLoop_of_nonneg keep hk]
    refine ⟨?_, ?_, ?_, ?_⟩
    · intro hgt
      rw [hrot]
      simp only [List.length_take, hlenS]
      omega
    · intro d hd k hkmem
      rw [hrot] at hd hkmem
      have hsplit := List.take_append_drop
        ((sortByMtime entries).length - keep.toNat) (sortByMtime entries)
      have hpair := hpairLT
      rw [← hsplit] at hpair
      exact (List.pairwise_append.mp hpair).2.2 d hd k hkmem
    · intro hge
      rw [hrot]
      have : (sortByMtime entries).length - keep.toNat = 0 := by omega
      simp [this]
    · intro hle
      have hkeq : keep = 0 := le_antisymm hle hk
      rw [hrot]
      simp [hkeq, hlenS]
  · have hrot : rotate entries keep = ⟨sortByMtime entries, [], true⟩ := by
      rw [rotate, rotLoop_of_neg keep hk]
    refine ⟨?_, ?_, ?_, ?_⟩
    · intro _
      rw [hrot]
      simp only [hlenS]
      omega
    · intro d _ k hkmem
      rw [hrot] at hkmem
      simp at hkmem
    · intro hge
      have h0 : (0 : Int) ≤ (entries.length : Int) := Int.ofNat_nonneg _
      omega
    · intro _
      rw [hrot]
      exact ⟨rfl, hlenS⟩

/-- Filtering a listing twice by the same kind is the same as filtering it
once. -/
theorem filter_kind_idem (contents : List DirEntry) (k : EntryKind) :
    ((contents.filter fun e => e.kind == k).filter fun e => e.kind == k)
      = contents.filter fun e => e.kind == k := by
  simp [List.filter_filter]

/-- C10: rotation only ever touches entries of its own kind.  File-level
rotation (`rotate_files`, used for SQLite) deletes only plain-file entries
and its whole outcome is determined by the plain-file entries alone, so
subdirectories are never deleted and never counted toward the retention
limit; directory-level rotation (`rotate_folders`, used for
MySQL/PostgreSQL/MSSQL) deletes only subdirectory entries and its whole
outcome is determined by the subdirectory entries alone — for every
directory contents and every retention count. -/
theorem rotation_kind_frame (contents : List DirEntry) (keep : Int) :
    ((∀ e ∈ (rotate_files contents keep).deleted, e.kind = EntryKind.file) ∧
      rotate_files contents keep
        = rotate_files (contents.filter fun e => e.kind == EntryKind.file) keep) ∧
    ((∀ e ∈ (rotate_folders contents keep).deleted, e.kind = EntryKind.dir) ∧
      rotate_folders contents keep
        = rotate_folders (contents.filter fun e => e.kind == EntryKind.dir) keep) := by
  refine ⟨⟨?_, ?_⟩, ⟨?_, ?_⟩⟩
  · intro e he
    have h1 := rotate_deleted_mem _ keep e he
    have h2 := List.of_mem_filter h1
    simpa using h2
  · rw [rotate_files, rotate_files, filter_kind_idem]
  · intro e he
    have h1 := rotate_deleted_mem _ keep e he
    have h2 := List.of_mem_filter h1
    simpa using h2
  · rw [rotate_folders, rotate_folders, filter_kind_idem]

/-- C1, counterexample to the claim as stated: a directory holding a single
file entry (N = 1) rotated with keep-count K = -1 has N > K, yet the pass
deletes 1 entry, not N - K = 2: a negative keep-count cannot delete more
entries than exist. -/
theorem rotation_count_counterexample :
    ((1 : Int) > (-1 : Int)) ∧
      ¬ (((rotate_files [⟨"a", EntryKind.file, 0⟩] (-1)).deleted.length : Int)
          = (1 : Int) - (-1 : Int)) := by
  decide

/-- C1 (amended): for every instance-directory contents consisting of
entries of the rotated kind with pairwise-distinct modification times and
every keep-count K: if the entry count N exceeds K, rotation deletes
exactly min N (N - K) oldest entries (that is N - K when K ≥ 0, and all N
when K < 0), each strictly older by modification time than every retained
entry; if K ≥ N no entry is deleted; and if K ≤ 0 every entry is
deleted. -/
theorem rotation_retention (contents : List DirEntry) (keep : Int)
    (hdist : (contents.map DirEntry.mtime).Nodup) :
    ((∀ e ∈ contents, e.kind = EntryKind.file) →
      (((contents.length : Int) > keep →
          (((rotate_files contents keep).deleted.length : Int)
            = min (contents.length : Int) ((contents.length : Int) - keep))) ∧
        (∀ d ∈ (rotate_files contents keep).deleted,
          ∀ k ∈ (rotate_files contents keep).remaining, d.mtime < k.mtime) ∧
        (keep ≥ (contents.length : Int) → (rotate_files contents keep).deleted = []) ∧
        (keep ≤ 0 → (rotate_files contents keep).remaining = []
          ∧ (rotate_files contents keep).deleted.length = contents.length))) ∧
    ((∀ e ∈ contents, e.kind = EntryKind.dir) →
      (((contents.length : Int) > keep →
          (((rotate_folders contents keep).deleted.length : Int)
            = min (contents.length : Int) ((contents.length : Int) - keep))) ∧
        (∀ d ∈ (rotate_folders contents keep).deleted,
          ∀ k ∈ (rotate_folders contents keep).remaining, d.mtime < k.mtime) ∧
        (keep ≥ (contents.length : Int) → (rotate_folders contents keep).deleted = []) ∧
        (keep ≤ 0 → (rotate_folders contents keep).remaining = []
          ∧ (rotate_folders contents keep).deleted.length = contents.length))) := by
  constructor
  · intro hkind
    have hf : contents.filter (fun e => e.kind == EntryKind.file) = contents :=
      List.filter_eq_self.mpr fun e he => by simp [hkind e he]
    simp only [rotate_files, hf]
    exact rotate_spec contents keep hdist
  · intro hkind
    have hf : contents.filter (fun e => e.kind == EntryKind.dir) = contents :=
      List.filter_eq_self.mpr fun e he => by simp [hkind e he]
    simp only [rotate_folders, hf]
    exact rotate_spec contents keep hdist

/-- A concrete two-file instance-directory listing, used by the closed
witness below. -/
def entsA : List DirEntry := [⟨"a", EntryKind.file, 5⟩, ⟨"b", EntryKind.file, 3⟩]

/-- Closed witness for the amended retention theorem at a concrete input:
two files with distinct mtimes, keep-count 1. -/
theorem rotation_retention_witness :
    ((entsA.map DirEntry.mtime).Nodup) ∧
      (((∀ e ∈ entsA, e.kind = EntryKind.file) →
        ((((entsA.length : Int) > (1 : Int) →
            (((rotate_files entsA 1).deleted.length : Int)
              = min (entsA.length : Int) ((entsA.length : Int) - 1))) ∧
          (∀ d ∈ (rotate_files entsA 1).deleted,
            ∀ k ∈ (rotate_files entsA 1).remaining, d.mtime < k.mtime) ∧
          ((1 : Int) ≥ (entsA.length : Int) → (rotate_files entsA 1).deleted = []) ∧
          ((1 : Int) ≤ 0 → (rotate_files entsA 1).remaining = []
            ∧ (rotate_files entsA 1).deleted.length = entsA.length)))) ∧
      ((∀ e ∈ entsA, e.kind = EntryKind.dir) →
        ((((entsA.length : Int) > (1 : Int) →
            (((rotate_folders entsA 1).deleted.length : Int)
              = min (entsA.length : Int) ((entsA.length : Int) - 1))) ∧
          (∀ d ∈ (rotate_folders entsA 1).deleted,
            ∀ k ∈ (rotate_folders entsA 1).remaining, d.mtime < k.mtime) ∧
          ((1 : Int) ≥ (entsA.length : Int) → (rotate_folders entsA 1).deleted = []) ∧
          ((1 : Int) ≤ 0 → (rotate_folders entsA 1).remaining = []
            ∧ (rotate_folders entsA 1).deleted.length = entsA.length))))) :=
  ⟨by decide, rotation_retention entsA 1 (by decide)⟩

/-! ### Artifact paths (src/backup.py)

`BACKUP_ROOT / engine / inst["name"]`, then a flat timestamped file for
SQLite or a timestamp directory holding one file per database for the
grouped engines.  `pathlib`'s `/` is embedded as string concatenation with
`"/"`. -/

/-- `base / inst["name"]` for SQLite (src/backup.py lines 49, 53). -/
def sqlite_inst_dir (root name : String) : String :=
  root ++ "/sqlite/" ++ name

/-- `inst_dir / f"{inst['name']}_{TIMESTAMP}.sql.gz"` (line 58). -/
def sqlite_outfile (root name ts : String) : String :=
  sqlite_inst_dir root name ++ "/" ++ (name ++ "_" ++ ts ++ ".sql.gz")

/-- `inst_dir / TIMESTAMP` for MySQL (lines 78-85). -/
def mysql_ts_dir (root name ts : String) : String :=
  root ++ "/mysql/" ++ name ++ "/" ++ ts

/-- `ts_dir / f"{db}.sql.gz"` (line 93). -/
def mysql_outfile (root name ts db : String) : String :=
  mysql_ts_dir root name ts ++ "/" ++ (db ++ ".sql.gz")

/-- `inst_dir / TIMESTAMP` for PostgreSQL (lines 154-161). -/
def postgresql_ts_dir (root name ts : String) : String :=
  root ++ "/postgresql/" ++ name ++ "/" ++ ts

/-- `ts_dir / f"{db}.dump"` (line 169). -/
def postgresql_outfile (root name ts db : String) : String :=
  postgresql_ts_dir root name ts ++ "/" ++ (db ++ ".dump")

/-- `inst_dir / TIMESTAMP` for MSSQL (lines 209-216). -/
def mssql_ts_dir (root name ts : String) : String :=
  root ++ "/mssql/" ++ name ++ "/" ++ ts

/-- `ts_dir / f"{db}.bak"` (line 224). -/
def mssql_outfile (root name ts db : String) : String :=
  mssql_ts_dir root name ts ++ "/" ++ (db ++ ".bak")

/-- Surrounding a string with a fixed prefix and a fixed suffix is injective
in the middle component. -/
theorem append_mid_inj (p s d1 d2 : String)
    (h : p ++ (d1 ++ s) = p ++ (d2 ++ s)) : d1 = d2 := by
  have hd : (p ++ (d1 ++ s)).data = (p ++ (d2 ++ s)).data := by rw [h]
  simp only [String.data_append] at hd
  have h1 := List.append_cancel_left hd
  have h2 := List.append_cancel_right h1
  cases d1
  cases d2
  exact congrArg String.mk h2

/-! ### Per-database backup steps (src/backup.py)

The external dump invocation of one step is represented by its exit code;
the gzip/stream plumbing moves opaque bytes and is not modelled. -/

/-- Outcome of one per-database (or, for SQLite, per-instance) backup step. -/
inductive BackupStep
  | completed (artifact : String)
  | calledProcessError (exitCode : Int)
  deriving DecidableEq, Repr

/-- One SQLite instance backup (src/backup.py lines 52-70): `sqlite3 <path>
.dump` is started with `Popen`, its stdout is gzip-copied into the artifact
file, and `dump.wait()` is called with its return value discarded — the
artifact is recorded as complete whatever the dump tool's exit status. -/
def backup_sqlite_inst (root name ts : String) (dumpExit : Int) : BackupStep :=
  let outfile := sqlite_outfile root name ts
  let _ := dumpExit
  BackupStep.completed outfile

/-- One MySQL per-database backup (lines 92-121): `mysqldump` via `Popen`,
stdout gzip-copied into the artifact file, and `dump.wait()` called with
its return value discarded. -/
def backup_mysql_db (root name ts db : String) (dumpExit : Int) : BackupStep :=
  let outfile := mysql_outfile root name ts db
  let _ := dumpExit
  BackupStep.completed outfile

/-- One PostgreSQL per-database backup (lines 168-185): `pg_dump -Fc` via
`subprocess.run(..., check=True)`, which raises `CalledProcessError`
carrying the tool's exit code when it is non-zero. -/
def backup_postgresql_db (root name ts db : String) (exitCode : Int) : BackupStep :=
  if exitCode ≠ 0 then BackupStep.calledProcessError exitCode
  else BackupStep.completed (postgresql_outfile root name ts db)

/-- One MSSQL per-database backup (lines 223-249): `sqlcmd BACKUP DATABASE`
via `subprocess.run(..., check=True)`. -/
def backup_mssql_db (root name ts db : String) (exitCode : Int) : BackupStep :=
  if exitCode ≠ 0 then BackupStep.calledProcessError exitCode
  else BackupStep.completed (mssql_outfile root name ts db)

/-- The `for db in databases:` loop of one instance backup: run the step for
each database in order.  An uncaught `CalledProcessError` aborts the loop at
that point, leaving the artifacts already recorded in place; otherwise the
loop continues with the next database.  Returns the artifacts recorded and
the aborting exit code, if any. -/
def backup_instance_loop (step : String → Int → BackupStep)
    (exitOf : String → Int) : List String → List String × Option Int
  | [] => ([], none)
  | db :: rest =>
    match step db (exitOf db) with
    | BackupStep.completed a =>
      let r := backup_instance_loop step exitOf rest
      (a :: r.1, r.2)
    | BackupStep.calledProcessError c => ([], some c)

/-- C2 evaluated at the failing input: when `mysqldump` exits with status 2
for database "orders", the MySQL instance loop records the "orders" artifact
as complete and continues to "users", finishing with no error — the
discarded `dump.wait()` status never surfaces, contradicting the claim that
every engine's backup fails with an error carrying the tool's exit code.
The SQLite step likewise completes under a non-zero dump exit status.  The
same failure under the PostgreSQL step (which uses `check=True`) does abort
with the tool's exit code, as the claim describes. -/
theorem backup_ignores_dump_exit :
    backup_instance_loop (backup_mysql_db "backups" "db1" "20240102_030405")
        (fun db => if db = "orders" then 2 else 0) ["orders", "users"]
      = (["backups/mysql/db1/20240102_030405/orders.sql.gz",
          "backups/mysql/db1/20240102_030405/users.sql.gz"], none) ∧
    backup_sqlite_inst "backups" "app" "20240102_030405" 1
      = BackupStep.completed "backups/sqlite/app/app_20240102_030405.sql.gz" ∧
    backup_instance_loop (backup_postgresql_db "backups" "db1" "20240102_030405")
        (fun db => if db = "orders" then 2 else 0) ["orders", "users"]
      = ([], some 2) :=
  ⟨rfl, rfl, rfl⟩

/-- C9: the artifact path is a deterministic function of
(engine, instance, timestamp, database) with the layout
`root/<engine>/<instance>/` followed by `<instance>_<timestamp>.sql.gz` for
SQLite or `<timestamp>/<database>.<ext>` for the grouped engines, and within
one run (fixed root, instance, timestamp) distinct databases always receive
distinct paths. -/
theorem artifact_path_layout (root name ts db db1 db2 : String)
    (hdb : db1 ≠ db2) :
    (sqlite_outfile root name ts
      = root ++ "/sqlite/" ++ name ++ "/" ++ name ++ "_" ++ ts ++ ".sql.gz") ∧
    (mysql_outfile root name ts db
      = root ++ "/mysql/" ++ name ++ "/" ++ ts ++ "/" ++ db ++ ".sql.gz") ∧
    (postgresql_outfile root name ts db
      = root ++ "/postgresql/" ++ name ++ "/" ++ ts ++ "/" ++ db ++ ".dump") ∧
    (mssql_outfile root name ts db
      = root ++ "/mssql/" ++ name ++ "/" ++ ts ++ "/" ++ db ++ ".bak") ∧
    mysql_outfile root name ts db1 ≠ mysql_outfile root name ts db2 ∧
    postgresql_outfile root name ts db1 ≠ postgresql_outfile root name ts db2 ∧
    mssql_outfile root name ts db1 ≠ mssql_outfile root name ts db2 := by
  refine ⟨?_, ?_, ?_, ?_, ?_, ?_, ?_⟩
  · simp [sqlite_outfile, sqlite_inst_dir, String.append_assoc]
  · simp [mysql_outfile, mysql_ts_dir, String.append_assoc]
  · simp [postgresql_outfile, postgresql_ts_dir, String.append_assoc]
  · simp [mssql_outfile, mssql_ts_dir, String.append_assoc]
  · intro h
    exact hdb (append_mid_inj (mysql_ts_dir root name ts ++ "/") ".sql.gz" db1 db2 h)
  · intro h
    exact hdb (append_mid_inj (postgresql_ts_dir root name ts ++ "/") ".dump" db1 db2 h)
  · intro h
    exact hdb (append_mid_inj (mssql_ts_dir root name ts ++ "/") ".bak" db1 db2 h)

/-- Closed witness for the artifact path layout theorem at concrete
inputs. -/
theorem artifact_path_layout_witness :
    (("orders" : String) ≠ "users") ∧
      ((sqlite_outfile "backups" "app" "t1"
        = "backups" ++ "/sqlite/" ++ "app" ++ "/" ++ "app" ++ "_" ++ "t1" ++ ".sql.gz") ∧
      (mysql_outfile "backups" "app" "t1" "orders"
        = "backups" ++ "/mysql/" ++ "app" ++ "/" ++ "t1" ++ "/" ++ "orders" ++ ".sql.gz") ∧
      (postgresql_outfile "backups" "app" "t1" "orders"
        = "backups" ++ "/postgresql/" ++ "app" ++ "/" ++ "t1" ++ "/" ++ "orders" ++ ".dump") ∧
      (mssql_outfile "backups" "app" "t1" "orders"
        = "backups" ++ "/mssql/" ++ "app" ++ "/" ++ "t1" ++ "/" ++ "orders" ++ ".bak") ∧
      mysql_outfile "backups" "app" "t1" "orders" ≠ mysql_outfile "backups" "app" "t1" "users" ∧
      postgresql_outfile "backups" "app" "t1" "orders"
        ≠ postgresql_outfile "backups" "app" "t1" "users" ∧
      mssql_outfile "backups" "app" "t1" "orders"
        ≠ mssql_outfile "backups" "app" "t1" "users") :=
  ⟨by decide, artifact_path_layout "backups" "app" "t1" "orders" "orders" "users" (by decide)⟩

/-! ### src/restore.py

Each adapter is embedded as a function from its Python arguments (plus the
outcome of any probe the source inspects) to the list of external argv
vectors it invokes, in order, together with its outcome.  External commands
run with `check=True` are modelled as succeeding: the claims below concern
which commands are constructed and in what order, and validation errors
raised before any command runs. -/

/-- One configured instance: the fields `restore.py` reads from the config
mapping.  `port`, `image` and `auth_db` are `none` when the key is absent
(the source then supplies the engine default); an absent or empty `user`
is the falsy case of `inst.get("user")`. -/
structure Inst where
  name : String
  host : String
  port : Option Nat
  user : String
  password : String
  image : Option String
  auth_db : Option String
  deriving DecidableEq, Repr

/-- Python truthiness of an optional string (`if not target_db: ...`):
`None` and the empty string are falsy. -/
def truthy : Option String → Bool
  | none => false
  | some s => s != ""

/-- Python `a or b` for an optional string with a string fallback
(`source_db or target_db` in `restore_mongodb`). -/
def pyOr (a : Option String) (b : String) : String :=
  match a with
  | none => b
  | some s => if s = "" then b else s

/-- Exceptions raised by the restore adapters. -/
inductive RestoreErr
  | runtimeError (msg : String)
  | valueError (msg : String)
  deriving DecidableEq, Repr

/-- `ensure_mysql_db` (src/restore.py lines 18-31): `CREATE DATABASE IF NOT
EXISTS` through the mysql client. -/
def ensure_mysql_cmd (inst : Inst) (dbname : String) : List String :=
  ["docker", "run", "--rm",
   inst.image.getD "mysql:8",
   "mysql",
   "-h", inst.host,
   "-P", toString (inst.port.getD 3306),
   "-u", inst.user,
   "-p" ++ inst.password,
   "-e", "CREATE DATABASE IF NOT EXISTS `" ++ dbname ++ "`;"]

/-- The mysql client invocation of `restore_mysql` (lines 44-53). -/
def mysql_restore_cmd (inst : Inst) (target_db : String) : List String :=
  ["docker", "run", "-i", "--rm",
   inst.image.getD "mysql:8",
   "mysql",
   "-h", inst.host,
   "-P", toString (inst.port.getD 3306),
   "-u", inst.user,
   "-p" ++ inst.password,
   target_db]

/-- The decompression side of the restore pipe (lines 59-64). -/
def gunzip_cmd : List String := ["gunzip", "-c"]

/-- `restore_mysql` (lines 33-79): reject any mode other than "single",
require a truthy `target_db`, ensure the destination database exists, then
pipe the gunzipped artifact into the mysql client. -/
def restore_mysql (inst : Inst) (backup_file mode : String)
    (source_db target_db : Option String) :
    List (List String) × Except RestoreErr Unit :=
  let _ := backup_file
  let _ := source_db
  if mode ≠ "single" then
    ([], Except.error
      (RestoreErr.runtimeError "MySQL restore only supports single-db backups"))
  else if ¬ truthy target_db then
    ([], Except.error (RestoreErr.valueError "single mode requires target_db"))
  else
    let tdb := target_db.getD ""
    ([ensure_mysql_cmd inst tdb, gunzip_cmd, mysql_restore_cmd inst tdb],
      Except.ok ())

/-- The psql existence probe of `ensure_postgres_db` (lines 84-96). -/
def pg_exists_cmd (inst : Inst) (dbname : String) : List String :=
  ["docker", "run", "--rm",
   "-e", "PGPASSWORD=" ++ inst.password,
   inst.image.getD "postgres:16",
   "psql",
   "-h", inst.host,
   "-p", toString (inst.port.getD 5432),
   "-U", inst.user,
   "-tc",
   "SELECT 1 FROM pg_database WHERE datname='" ++ dbname ++ "';"]

/-- The createdb invocation of `ensure_postgres_db` (lines 100-110). -/
def pg_createdb_cmd (inst : Inst) (dbname : String) : List String :=
  ["docker", "run", "--rm",
   "-e", "PGPASSWORD=" ++ inst.password,
   inst.image.getD "postgres:16",
   "createdb",
   "-h", inst.host,
   "-p", toString (inst.port.getD 5432),
   "-U", inst.user,
   dbname]

/-- `ensure_postgres_db` (lines 81-110): probe for the database with psql;
when the stripped probe output is empty — `db_exists = false` stands for
that truthiness — run `createdb`.  Returns the argv trace. -/
def ensure_postgres_db (inst : Inst) (dbname : String) (db_exists : Bool) :
    List (List String) :=
  [pg_exists_cmd inst dbname]
    ++ if db_exists then [] else [pg_createdb_cmd inst dbname]

/-- The pg_restore invocation of the "single" branch (lines 121-132). -/
def pg_restore_cmd (inst : Inst) (target_db : String) : List String :=
  ["docker", "run", "-i", "--rm",
   "-e", "PGPASSWORD=" ++ inst.password,
   inst.image.getD "postgres:16",
   "pg_restore",
   "-h", inst.host,
   "-p", toString (inst.port.getD 5432),
   "-U", inst.user,
   "-d", target_db,
   "--clean",
   "--if-exists"]

/-- The psql invocation of the "all" branch (lines 141-149): an interactive
session with no pre-selected database. -/
def psql_all_cmd (inst : Inst) : List String :=
  ["docker", "run", "-i", "--rm",
   "-e", "PGPASSWORD=" ++ inst.password,
   inst.image.getD "postgres:16",
   "psql",
   "-h", inst.host,
   "-p", toString (inst.port.getD 5432),
   "-U", inst.user]

/-- `restore_postgresql` (lines 112-160): "single" requires truthy
`source_db` and `target_db`, prepares the destination, then streams the
artifact into `pg_restore -d target_db`; "all" streams the artifact into a
psql session with no destination database; any other mode raises
`ValueError` before any command runs. -/
def restore_postgresql (inst : Inst) (backup_file mode : String)
    (source_db target_db : Option String) (db_exists : Bool) :
    List (List String) × Except RestoreErr Unit :=
  let _ := backup_file
  if mode = "single" then
    if ¬ truthy source_db ∨ ¬ truthy target_db then
      ([], Except.error
        (RestoreErr.valueError "single mode requires source_db and target_db"))
    else
      let tdb := target_db.getD ""
      (ensure_postgres_db inst tdb db_exists ++ [pg_restore_cmd inst tdb],
        Except.ok ())
  else if mode = "all" then
    ([psql_all_cmd inst], Except.ok ())
  else
    ([], Except.error (RestoreErr.valueError "mode must be 'single' or 'all'"))

/-- Last path component (`Path(...).name`); `resolve()` is kept abstract,
the path is taken as given. -/
def pathName (p : String) : String := (p.splitOn "/").getLastD p

/-- Parent of a path (`Path(...).parent`), as the components before the
last one. -/
def pathParent (p : String) : String :=
  String.intercalate "/" (p.splitOn "/").dropLast

/-- The drop-and-recreate sqlcmd of `restore_mssql` (lines 194-211). -/
def mssql_prepare_cmd (inst : Inst) (target_db : String) : List String :=
  ["docker", "run", "--rm",
   inst.image.getD "mcr.microsoft.com/mssql-tools",
   "sqlcmd",
   "-S", inst.host ++ "," ++ toString (inst.port.getD 1433),
   "-U", inst.user,
   "-P", inst.password,
   "-Q", "\nIF DB_ID(N'" ++ target_db ++ "') IS NOT NULL\nBEGIN\nALTER DATABASE ["
     ++ target_db ++ "] SET SINGLE_USER WITH ROLLBACK IMMEDIATE;\nDROP DATABASE ["
     ++ target_db ++ "];\nEND\nCREATE DATABASE [" ++ target_db ++ "];\n"]

/-- The `RESTORE DATABASE` sqlcmd of `restore_mssql` (lines 215-228). -/
def mssql_restore_cmd (inst : Inst) (backup_file target_db : String) : List String :=
  ["docker", "run", "--rm",
   "-v", pathParent backup_file ++ ":/backup",
   inst.image.getD "mcr.microsoft.com/mssql-tools",
   "sqlcmd",
   "-S", inst.host ++ "," ++ toString (inst.port.getD 1433),
   "-U", inst.user,
   "-P", inst.password,
   "-Q", "\nRESTORE DATABASE [" ++ target_db ++ "]\nFROM DISK = '/backup/"
     ++ pathName backup_file ++ "'\nWITH REPLACE\n"]

/-- `restore_mssql` (lines 182-235): single mode only, truthy `target_db`
required, then drop-and-recreate the destination and run the restore. -/
def restore_mssql (inst : Inst) (backup_file mode : String)
    (source_db target_db : Option String) :
    List (List String) × Except RestoreErr Unit :=
  let _ := source_db
  if mode ≠ "single" then
    ([], Except.error
      (RestoreErr.runtimeError "MSSQL restore only supports single-db backups"))
  else if ¬ truthy target_db then
    ([], Except.error (RestoreErr.valueError "MSSQL single mode requires target_db"))
  else
    let tdb := target_db.getD ""
    ([mssql_prepare_cmd inst tdb, mssql_restore_cmd inst backup_file tdb],
      Except.ok ())

/-- The connectivity/auth probe of `ensure_mongodb_db` (lines 237-262). -/
def mongo_ensure_cmd (inst : Inst) (dbname : String) : List String :=
  (["docker", "run", "--rm",
    inst.image.getD "mongo:7",
    "mongosh",
    "--quiet",
    "--host", inst.host,
    "--port", toString (inst.port.getD 27017),
    "--eval", "db.getSiblingDB('" ++ dbname ++ "').runCommand(\x7b ping: 1 \x7d)"])
  ++ (if inst.user ≠ "" then
        ["-u", inst.user,
         "-p", inst.password,
         "--authenticationDatabase", inst.auth_db.getD "admin"]
      else [])

/-- The mongorestore invocation of `restore_mongodb` (lines 275-293), with
the namespace remap from `source_db or target_db` to `target_db`. -/
def mongo_restore_cmd (inst : Inst) (source_db : Option String)
    (target_db : String) : List String :=
  (["docker", "run", "-i", "--rm",
    inst.image.getD "mongo:7",
    "mongorestore",
    "--host", inst.host,
    "--port", toString (inst.port.getD 27017),
    "--archive",
    "--gzip",
    "--nsFrom", pyOr source_db target_db ++ ".*",
    "--nsTo", target_db ++ ".*"])
  ++ (if inst.user ≠ "" then
        ["--username", inst.user,
         "--password", inst.password,
         "--authenticationDatabase", inst.auth_db.getD "admin"]
      else [])

/-- `restore_mongodb` (lines 264-313): single mode only, truthy `target_db`
required, connectivity probe, then mongorestore fed from the artifact. -/
def restore_mongodb (inst : Inst) (backup_file mode : String)
    (source_db target_db : Option String) :
    List (List String) × Except RestoreErr Unit :=
  let _ := backup_file
  if mode ≠ "single" then
    ([], Except.error
      (RestoreErr.runtimeError "MongoDB restore only supports single-db backups"))
  else if ¬ truthy target_db then
    ([], Except.error (RestoreErr.valueError "single mode requires target_db"))
  else
    let tdb := target_db.getD ""
    ([mongo_ensure_cmd inst tdb, mongo_restore_cmd inst source_db tdb],
      Except.ok ())

/-- Errors terminating `main` (src/restore.py lines 315-342). -/
inductive MainErr
  | usageExit
  | keyError (dbtype : String)
  | instanceNotFound (dbtype name : String)
  | unsupportedDbType
  | restoreFailed (e : RestoreErr)
  deriving DecidableEq, Repr

/-- `find_instance` (lines 11-15): scan `config[dbtype]["instances"]` for a
matching name.  `config[dbtype]` raises `KeyError` when the engine section
is missing; an unmatched name raises `ValueError`. -/
def find_instance (cfg : String → Option (List Inst)) (dbtype name : String) :
    Except MainErr Inst :=
  match cfg dbtype with
  | none => Except.error (MainErr.keyError dbtype)
  | some insts =>
    match insts.find? (fun i => i.name == name) with
    | some i => Except.ok i
    | none => Except.error (MainErr.instanceNotFound dbtype name)

/-- Lift an adapter outcome into the outcome of `main`. -/
def liftRestore : List (List String) × Except RestoreErr Unit →
    List (List String) × Except MainErr Unit
  | (tr, Except.ok ()) => (tr, Except.ok ())
  | (tr, Except.error e) => (tr, Except.error (MainErr.restoreFailed e))

/-- `main` (lines 315-342): with fewer than six members in `sys.argv`
(program name plus five positionals — only `target_db` may be left off
entirely) it prints the usage text and exits with status 1; otherwise it
parses the positionals (a literal "-" meaning `None`), resolves the
instance, and dispatches on the engine string — "mysql", "postgresql" and
"mssql" only; any other engine raises
`ValueError("Unsupported database type")`. -/
def main (cfg : String → Option (List Inst)) (argv : List String)
    (db_exists : Bool) : List (List String) × Except MainErr Unit :=
  if argv.length < 6 then ([], Except.error MainErr.usageExit)
  else
    let dbtype := argv.getD 1 ""
    let inst_name := argv.getD 2 ""
    let backup_file := argv.getD 3 ""
    let mode := argv.getD 4 ""
    let source_db := if argv.getD 5 "" = "-" then none else some (argv.getD 5 "")
    let target_db :=
      if 6 < argv.length ∧ argv.getD 6 "" ≠ "-" then some (argv.getD 6 "")
      else none
    match find_instance cfg dbtype inst_name with
    | Except.error e => ([], Except.error e)
    | Except.ok inst =>
      if dbtype = "mysql" then
        liftRestore (restore_mysql inst backup_file mode source_db target_db)
      else if dbtype = "postgresql" then
        liftRestore
          (restore_postgresql inst backup_file mode source_db target_db db_exists)
      else if dbtype = "mssql" then
        liftRestore (restore_mssql inst backup_file mode source_db target_db)
      else ([], Except.error MainErr.unsupportedDbType)

/-- A concrete configured MongoDB instance, used by the closed witnesses. -/
def instEx : Inst := ⟨"m1", "db.local", some 27017, "root", "pw", none, none⟩

/-- A concrete configured PostgreSQL instance, used by the closed
witnesses. -/
def pgInstEx : Inst := ⟨"primary", "db.local", some 5432, "root", "pw", none, none⟩

/-- A configuration with a PostgreSQL instance "primary" and a MongoDB
instance "m1", used by the closed dispatch theorems. -/
def cfgEx : String → Option (List Inst) := fun dbtype =>
  if dbtype = "postgresql" then some [pgInstEx]
  else if dbtype = "mongodb" then some [instEx]
  else none

/-- C3: an unsupported (engine, mode) combination fails with the adapter's
mode-unsupported error before any external command is invoked — the
command trace is empty, so no ensure-destination, drop, create or restore
command runs.  MySQL, MSSQL and MongoDB reject every mode other than
"single" (so in particular MySQL with mode "all"); PostgreSQL rejects
every mode other than "single" and "all". -/
theorem restore_mode_unsupported (inst : Inst) (backup_file mode : String)
    (source_db target_db : Option String) (db_exists : Bool)
    (hm : mode ≠ "single") :
    restore_mysql inst backup_file mode source_db target_db
      = ([], Except.error
          (RestoreErr.runtimeError "MySQL restore only supports single-db backups")) ∧
    restore_mssql inst backup_file mode source_db target_db
      = ([], Except.error
          (RestoreErr.runtimeError "MSSQL restore only supports single-db backups")) ∧
    restore_mongodb inst backup_file mode source_db target_db
      = ([], Except.error
          (RestoreErr.runtimeError "MongoDB restore only supports single-db backups")) ∧
    (mode ≠ "all" →
      restore_postgresql inst backup_file mode source_db target_db db_exists
        = ([], Except.error
            (RestoreErr.valueError "mode must be 'single' or 'all'"))) := by
  refine ⟨?_, ?_, ?_, fun ha => ?_⟩
  · simp [restore_mysql, hm]
  · simp [restore_mssql, hm]
  · simp [restore_mongodb, hm]
  · simp [restore_postgresql, hm, ha]

/-- Closed witness for the mode-validation theorem at mode "bogus". -/
theorem restore_mode_unsupported_witness :
    (("bogus" : String) ≠ "single") ∧
      (restore_mysql pgInstEx "b" "bogus" none none
        = ([], Except.error
            (RestoreErr.runtimeError "MySQL restore only supports single-db backups")) ∧
      restore_mssql pgInstEx "b" "bogus" none none
        = ([], Except.error
            (RestoreErr.runtimeError "MSSQL restore only supports single-db backups")) ∧
      restore_mongodb pgInstEx "b" "bogus" none none
        = ([], Except.error
            (RestoreErr.runtimeError "MongoDB restore only supports single-db backups")) ∧
      (("bogus" : String) ≠ "all" →
        restore_postgresql pgInstEx "b" "bogus" none none true
          = ([], Except.error
              (RestoreErr.valueError "mode must be 'single' or 'all'")))) :=
  ⟨by decide, restore_mode_unsupported pgInstEx "b" "bogus" none none true (by decide)⟩

/-- C4: a PostgreSQL "all"-mode restore performs no destination
preparation at all: for every `source_db`, every `target_db` and every
existence-probe outcome, the only external command invoked is the fixed
psql session argv below — which pre-selects no database (it carries no
`-d` flag) and is neither the existence probe nor a createdb — and the
restore then succeeds. -/
theorem restore_postgresql_all_frame (inst : Inst) (backup_file : String)
    (source_db target_db : Option String) (db_exists : Bool) :
    restore_postgresql inst backup_file "all" source_db target_db db_exists
      = ([["docker", "run", "-i", "--rm",
           "-e", "PGPASSWORD=" ++ inst.password,
           inst.image.getD "postgres:16",
           "psql",
           "-h", inst.host,
           "-p", toString (inst.port.getD 5432),
           "-U", inst.user]],
         Except.ok ()) := by
  simp [restore_postgresql, psql_all_cmd]

/-- C5: a MongoDB single-mode restore with `target_db` provided builds a
mongorestore invocation whose namespace-remap arguments map `<s>.*` to
`<target_db>.*`, where `<s>` is `source_db` when it is provided and
`target_db` when it is absent. -/
theorem mongodb_namespace_remap (inst : Inst) (backup_file : String)
    (source_db : Option String) (t : String) (ht : t ≠ "")
    (hs : ∀ s, source_db = some s → s ≠ "") :
    ∃ cmd pre post,
      (restore_mongodb inst backup_file "single" source_db (some t)).1
        = [mongo_ensure_cmd inst t, cmd] ∧
      cmd = pre
        ++ ["--nsFrom",
            (match source_db with | some s => s | none => t) ++ ".*",
            "--nsTo", t ++ ".*"]
        ++ post := by
  refine ⟨mongo_restore_cmd inst source_db t,
    ["docker", "run", "-i", "--rm",
     inst.image.getD "mongo:7",
     "mongorestore",
     "--host", inst.host,
     "--port", toString (inst.port.getD 27017),
     "--archive",
     "--gzip"],
    (if inst.user ≠ "" then
      ["--username", inst.user,
       "--password", inst.password,
       "--authenticationDatabase", inst.auth_db.getD "admin"]
     else []), ?_, ?_⟩
  · simp [restore_mongodb, truthy, ht]
  · cases source_db with
    | none => simp [mongo_restore_cmd, pyOr]
    | some s =>
      have hs2 : s ≠ "" := hs s rfl
      simp [mongo_restore_cmd, pyOr, hs2]

/-- Closed witness for the MongoDB namespace-remap theorem: source
"old_name" and target "new_name" yield a remap of `old_name.*` to
`new_name.*`. -/
theorem mongodb_namespace_remap_witness :
    (("new_name" : String) ≠ "") ∧
      (∀ s, (some "old_name" : Option String) = some s → s ≠ "") ∧
      (∃ cmd pre post,
        (restore_mongodb instEx "b.archive" "single" (some "old_name")
            (some "new_name")).1
          = [mongo_ensure_cmd instEx "new_name", cmd] ∧
        cmd = pre
          ++ ["--nsFrom",
              (match (some "old_name" : Option String) with
                | some s => s
                | none => "new_name") ++ ".*",
              "--nsTo", "new_name" ++ ".*"]
          ++ post) := by
  refine ⟨by decide, ?_, ?_⟩
  · intro s h
    rw [Option.some.injEq] at h
    subst h
    decide
  · exact mongodb_namespace_remap instEx "b.archive" (some "old_name") "new_name"
      (by decide) (fun s h => by rw [Option.some.injEq] at h; subst h; decide)

/-- C8: a PostgreSQL single-mode restore with both database names provided
invokes the destination preparation — the existence probe for `target_db`
first, plus `createdb` exactly when the probe reports absence — strictly
before the `pg_restore` that consumes the artifact stream, and that
`pg_restore` argv carries the destination flag `-d target_db`. -/
theorem postgresql_single_prepare_before_restore (inst : Inst)
    (backup_file : String) (s t : String) (hs : s ≠ "") (ht : t ≠ "")
    (db_exists : Bool) :
    ∃ cmd,
      restore_postgresql inst backup_file "single" (some s) (some t) db_exists
        = (ensure_postgres_db inst t db_exists ++ [cmd], Except.ok ()) ∧
      (ensure_postgres_db inst t db_exists).head? = some (pg_exists_cmd inst t) ∧
      (∃ pre post, cmd = pre ++ ["-d", t] ++ post) ∧
      "pg_restore" ∈ cmd := by
  refine ⟨pg_restore_cmd inst t, ?_, ?_, ?_, ?_⟩
  · simp [restore_postgresql, truthy, hs, ht]
  · simp [ensure_postgres_db]
  · exact ⟨["docker", "run", "-i", "--rm",
      "-e", "PGPASSWORD=" ++ inst.password,
      inst.image.getD "postgres:16",
      "pg_restore",
      "-h", inst.host,
      "-p", toString (inst.port.getD 5432),
      "-U", inst.user],
      ["--clean", "--if-exists"], by simp [pg_restore_cmd]⟩
  · simp [pg_restore_cmd]

/-- Closed witness for the PostgreSQL single-restore ordering theorem:
source "orders", target "orders_copy", destination initially absent. -/
theorem postgresql_single_prepare_before_restore_witness :
    (("orders" : String) ≠ "") ∧ (("orders_copy" : String) ≠ "") ∧
      (∃ cmd,
        restore_postgresql pgInstEx "b.dump" "single" (some "orders")
            (some "orders_copy") false
          = (ensure_postgres_db pgInstEx "orders_copy" false ++ [cmd],
             Except.ok ()) ∧
        (ensure_postgres_db pgInstEx "orders_copy" false).head?
          = some (pg_exists_cmd pgInstEx "orders_copy") ∧
        (∃ pre post, cmd = pre ++ ["-d", "orders_copy"] ++ post) ∧
        "pg_restore" ∈ cmd) :=
  ⟨by decide, by decide,
    postgresql_single_prepare_before_restore pgInstEx "b.dump" "orders"
      "orders_copy" (by decide) (by decide) false⟩

/-- C6 evaluated at the failing input: `main` with engine "mongodb", a
configured instance "m1", an artifact path, mode "single" and a target
database raises `ValueError("Unsupported database type")` instead of
dispatching to the MongoDB adapter — the dispatch chain covers only
"mysql", "postgresql" and "mssql" — although `restore_mongodb` exists and
supports exactly this invocation, as the second conjunct shows. -/
theorem main_mongodb_not_dispatched :
    main cfgEx ["restore.py", "mongodb", "m1", "b.archive", "single", "-", "newdb"]
        true
      = ([], Except.error MainErr.unsupportedDbType) ∧
    restore_mongodb instEx "b.archive" "single" none (some "newdb")
      = ([mongo_ensure_cmd instEx "newdb", mongo_restore_cmd instEx none "newdb"],
         Except.ok ()) := by
  constructor <;> rfl

/-- C7 evaluated at the failing input: the four-positional invocation
`postgresql primary <artifact> all` — the very shape the source's own usage
text documents for PostgreSQL "all" mode — makes `len(sys.argv) = 5 < 6`,
so `main` prints usage and exits 1: the `source_db` slot is in fact
mandatory.  With an explicit "-" placeholder for `source_db` (and
`target_db` genuinely omitted) the invocation is accepted and proceeds to
the psql restore, confirming that `target_db` is not required in "all"
mode. -/
theorem main_all_mode_arity :
    main cfgEx ["restore.py", "postgresql", "primary", "backups/x.dump", "all"]
        true
      = ([], Except.error MainErr.usageExit) ∧
    main cfgEx
        ["restore.py", "postgresql", "primary", "backups/x.dump", "all", "-"]
        true
      = ([psql_all_cmd pgInstEx], Except.ok ()) := by
  constructor <;> rfl

end UDB
